import Mathlib

/-!
Verification of the pdf-rag batch pipeline (discovery → retrieval+filter →
extraction → normalization → aggregation) against its specification.

The embedding models the two core modules:
* `pdf_scraping/arxiv_downloader.py` — `ArxivPaperDownloader.download_and_filter_pdfs`
* `pdf_scraping/research_processor.py` — `ResearchPaperProcessor.generate_responses`,
  `convert_responses_to_json`, `combine_json_files`, and the `run` pipeline.

External effects (HTTP fetch + PyPDF2 page measurement, the generative
extraction call, `json.loads`) are modeled by their observable outcome on each
input: a fetch either raises (`none`) or yields a measured page count
(`some n`); an extraction call either raises (`none`) or returns a text; a text
is represented by what `json.loads` does to it (`none` = `JSONDecodeError`,
`some j` = the parsed JSON value).  File stores (the pdf/response/json folders)
are modeled as ordered association lists keyed by the base file name.
-/

namespace PdfRag

/-- A JSON value, as produced by Python's `json.loads`. -/
inductive Json where
  | null : Json
  | bool : Bool → Json
  | num : Int → Json
  | str : String → Json
  | arr : List Json → Json
  | obj : List (String × Json) → Json
deriving Repr

/-! ## arxiv_downloader.py — `download_and_filter_pdfs` -/

/-- One row of the metadata DataFrame handed to `download_and_filter_pdfs`,
together with the outcome the network/PDF stack produces for its URL:
`fetch = none` models `requests.get`/`raise_for_status`/`PdfReader` raising an
exception; `fetch = some n` models a successful download whose
`len(pdf_reader.pages)` is `n`. -/
structure Row where
  id : String
  fetch : Option Nat
deriving DecidableEq, Repr

/-- The loop state of `download_and_filter_pdfs`: the quota counter
`valid_pdf_count`, the accumulated `pdf_page_counts` list, and the ids whose
binaries were written to the output folder (`open(file_path,'wb')`). -/
structure LoopState where
  valid_pdf_count : Nat
  pdf_page_counts : List Nat
  saved : List String
deriving DecidableEq, Repr

/-- The state at loop entry: counter `0`, no page counts, nothing saved. -/
def initState : LoopState := ⟨0, [], []⟩

/-- The `for _, row in df.iterrows()` loop of `download_and_filter_pdfs`.
On success the measured `page_count` is compared with `max_pages`; within the
bound the binary is persisted and the counter incremented; the page count is
appended and the loop breaks once `valid_pdf_count >= quota` (the source
hardcodes `quota = 100`).  On an exception the sentinel `0` is appended and the
loop continues. -/
def downloadLoop (quota maxPages : Nat) : List Row → LoopState → LoopState
  | [], s => s
  | r :: rs, s =>
    match r.fetch with
    | some page_count =>
      let s1 : LoopState :=
        if page_count ≤ maxPages then
          { s with saved := s.saved ++ [r.id],
                   valid_pdf_count := s.valid_pdf_count + 1 }
        else s
      let s2 : LoopState := { s1 with pdf_page_counts := s1.pdf_page_counts ++ [page_count] }
      if quota ≤ s2.valid_pdf_count then s2
      else downloadLoop quota maxPages rs s2
    | none =>
      downloadLoop quota maxPages rs
        { s with pdf_page_counts := s.pdf_page_counts ++ [0] }

/-- `download_and_filter_pdfs`, generalized over the quota cap (the source
hardcodes `100`; see `download_and_filter_pdfs`).  Runs the download loop, trims
the DataFrame to the attempted prefix (`df.iloc[:processed_rows]`), pairs each
trimmed row with its recorded page count (`df['pdf_page_count'] = ...`), and
returns the final loop state together with the rows passing the second filter
`df['pdf_page_count'] <= max_pages`. -/
def download_and_filter_pdfs_gen (quota maxPages : Nat) (df : List Row) :
    LoopState × List (Row × Nat) :=
  let s := downloadLoop quota maxPages df initState
  let processed_rows := s.pdf_page_counts.length
  let trimmed := (df.take processed_rows).zip s.pdf_page_counts
  (s, trimmed.filter (fun p => p.2 ≤ maxPages))

/-- `ArxivPaperDownloader.download_and_filter_pdfs` as in the source, with the
quota cap hardcoded to `100` (`if valid_pdf_count >= 100: break`). -/
def download_and_filter_pdfs (maxPages : Nat) (df : List Row) :
    LoopState × List (Row × Nat) :=
  download_and_filter_pdfs_gen 100 maxPages df

/-- The page count the loop records for a row: the measured count on success,
the sentinel `0` on a retrieval failure. -/
def pageCountOf (r : Row) : Nat := r.fetch.getD 0

/-! ### Loop invariants -/

/-- Entering the loop strictly below the quota cap, the counter never exceeds
the cap: the break fires in the same iteration in which the cap is reached. -/
lemma downloadLoop_count_le (quota maxPages : Nat) :
    ∀ (df : List Row) (s : LoopState), s.valid_pdf_count < quota →
      (downloadLoop quota maxPages df s).valid_pdf_count ≤ quota := by
  intro df
  induction df with
  | nil => intro s h; exact Nat.le_of_lt h
  | cons r rs ih =>
    intro s h
    cases hf : r.fetch with
    | none =>
      simp only [downloadLoop, hf]
      exact ih _ h
    | some pc =>
      simp only [downloadLoop, hf]
      by_cases hpc : pc ≤ maxPages
      · simp only [hpc, if_true]
        by_cases hq : quota ≤ s.valid_pdf_count + 1
        · simpa [hq] using h
        · simp only [hq, if_false]
          exact ih _ (Nat.lt_of_not_le hq)
      · simp only [hpc, if_false]
        by_cases hq : quota ≤ s.valid_pdf_count
        · exact absurd h (Nat.not_lt_of_le hq)
        · simp only [hq, if_false]
          exact ih _ h

/-- Each increment of the quota counter saves exactly one binary: the loop
preserves `saved.length = valid_pdf_count` offsets. -/
lemma downloadLoop_saved_length (quota maxPages : Nat) :
    ∀ (df : List Row) (s : LoopState), s.saved.length = s.valid_pdf_count →
      (downloadLoop quota maxPages df s).saved.length
        = (downloadLoop quota maxPages df s).valid_pdf_count := by
  intro df
  induction df with
  | nil => intro s h; exact h
  | cons r rs ih =>
    intro s h
    cases hf : r.fetch with
    | none =>
      simp only [downloadLoop, hf]
      exact ih _ (by simpa using h)
    | some pc =>
      simp only [downloadLoop, hf]
      by_cases hpc : pc ≤ maxPages
      · simp only [hpc, if_true]
        by_cases hq : quota ≤ s.valid_pdf_count + 1
        · simpa [hq] using h
        · simp only [hq, if_false]
          exact ih _ (by simpa using h)
      · simp only [hpc, if_false]
        by_cases hq : quota ≤ s.valid_pdf_count
        · simpa [hq] using h
        · simp only [hq, if_false]
          exact ih _ h

/-- C1: For every run of `download_and_filter_pdfs` on any input sequence of
records, the number of documents whose binaries are persisted — which equals
the quota counter — never exceeds the hardcoded quota cap of 100, regardless of
how retrieval successes and failures are interleaved. -/
theorem downloaded_count_le_quota_cap (maxPages : Nat) (df : List Row) :
    (download_and_filter_pdfs maxPages df).1.saved.length ≤ 100 ∧
      (download_and_filter_pdfs maxPages df).1.valid_pdf_count ≤ 100 := by
  have hcount : (downloadLoop 100 maxPages df initState).valid_pdf_count ≤ 100 :=
    downloadLoop_count_le 100 maxPages df initState (by decide)
  have hsaved : (downloadLoop 100 maxPages df initState).saved.length
      = (downloadLoop 100 maxPages df initState).valid_pdf_count :=
    downloadLoop_saved_length 100 maxPages df initState (by decide)
  exact ⟨by simpa [download_and_filter_pdfs, download_and_filter_pdfs_gen, hsaved] using hcount,
    by simpa [download_and_filter_pdfs, download_and_filter_pdfs_gen] using hcount⟩

/-- C2 (failing input): a single record whose retrieval fails carries the
sentinel page count 0; the sentinel passes the second filter
`pdf_page_count <= max_pages`, so the record appears in the returned set even
though nothing was downloaded for it — contradicting the claim that
retrieval-failed records are absent from the retained set. -/
theorem failed_record_retained :
    (download_and_filter_pdfs 15 [⟨"A", none⟩]).2 = [(⟨"A", none⟩, 0)] ∧
      (download_and_filter_pdfs 15 [⟨"A", none⟩]).1.saved = [] := by
  decide

/-- Once the quota break has fired inside `df`, appending further records
changes nothing: the loop on `df ++ extra` stops at the same point. -/
lemma downloadLoop_break_absorbs (quota maxPages : Nat) :
    ∀ (df : List Row) (s : LoopState) (extra : List Row),
      s.valid_pdf_count < quota →
      quota ≤ (downloadLoop quota maxPages df s).valid_pdf_count →
      downloadLoop quota maxPages (df ++ extra) s = downloadLoop quota maxPages df s := by
  intro df
  induction df with
  | nil =>
    intro s extra h0 h
    simp only [downloadLoop] at h
    exact absurd h (Nat.not_le_of_lt h0)
  | cons r rs ih =>
    intro s extra h0 h
    cases hf : r.fetch with
    | none =>
      simp only [downloadLoop, hf] at h ⊢
      exact ih _ extra h0 h
    | some pc =>
      simp only [downloadLoop, hf] at h ⊢
      by_cases hpc : pc ≤ maxPages
      · simp only [hpc, if_true] at h ⊢
        by_cases hq : quota ≤ s.valid_pdf_count + 1
        · simp [hq]
        · simp only [hq, if_false] at h ⊢
          exact ih _ extra (Nat.lt_of_not_le hq) h
      · simp only [hpc, if_false] at h ⊢
        by_cases hq : quota ≤ s.valid_pdf_count
        · exact absurd h0 (Nat.not_lt_of_le hq)
        · simp only [hq, if_false] at h ⊢
          exact ih _ extra h0 h

/-- C3: When the quota counter reaches its cap, processing stops entirely:
records past the break point have no effect on the run (first conjunct), and in
the concrete scenario with quota 1 and three retainable candidates `[A, B, C]`
only `A` is downloaded, only `A`'s page count is recorded and returned, while
`B` and `C` are exactly the never-attempted suffix — trimmed away untouched,
neither rejected nor marked with the failure sentinel. -/
theorem quota_cap_stops_processing :
    (∀ (quota maxPages : Nat) (s : LoopState) (df extra : List Row),
        s.valid_pdf_count < quota →
        quota ≤ (downloadLoop quota maxPages df s).valid_pdf_count →
        downloadLoop quota maxPages (df ++ extra) s = downloadLoop quota maxPages df s) ∧
    (∀ (maxPages a b c : Nat) (A B C : Row),
        A.fetch = some a → a ≤ maxPages →
        B.fetch = some b → b ≤ maxPages →
        C.fetch = some c → c ≤ maxPages →
        (download_and_filter_pdfs_gen 1 maxPages [A, B, C]).1.saved = [A.id] ∧
        (download_and_filter_pdfs_gen 1 maxPages [A, B, C]).1.pdf_page_counts = [a] ∧
        (download_and_filter_pdfs_gen 1 maxPages [A, B, C]).2 = [(A, a)] ∧
        List.drop
          (download_and_filter_pdfs_gen 1 maxPages [A, B, C]).1.pdf_page_counts.length
          [A, B, C] = [B, C]) := by
  constructor
  · intro quota maxPages s df extra h0 h
    exact downloadLoop_break_absorbs quota maxPages df s extra h0 h
  · intro maxPages a b c A B C hA ha _ _ _ _
    simp [download_and_filter_pdfs_gen, downloadLoop, initState, hA, ha]

/-- C3 witness: the quota-1 scenario evaluated on three concrete retainable
rows, and the break-absorption conjunct applied at a concrete interleaving. -/
theorem quota_cap_stops_processing_witness :
    (download_and_filter_pdfs_gen 1 15
        [⟨"A", some 3⟩, ⟨"B", some 4⟩, ⟨"C", some 5⟩]).1.saved = ["A"] ∧
    downloadLoop 1 15 ([⟨"A", some 3⟩] ++ [⟨"B", some 4⟩]) initState
      = downloadLoop 1 15 [⟨"A", some 3⟩] initState := by
  refine ⟨(quota_cap_stops_processing.2 15 3 4 5 ⟨"A", some 3⟩ ⟨"B", some 4⟩ ⟨"C", some 5⟩
      rfl (by decide) rfl (by decide) rfl (by decide)).1, ?_⟩
  exact quota_cap_stops_processing.1 1 15 initState [⟨"A", some 3⟩] [⟨"B", some 4⟩]
    (by decide) (by decide)

/-- C7: every pair returned by the retrieval filter has recorded page count at
most `max_pages` — a document whose measured count exceeds the bound is absent —
and in Scenario A (measured counts `[5, 20, 8]`, `max_pages = 15`) the retained
set is exactly documents 1 and 3. -/
theorem page_count_filter :
    (∀ (quota maxPages : Nat) (df : List Row) (p : Row × Nat),
        p ∈ (download_and_filter_pdfs_gen quota maxPages df).2 → p.2 ≤ maxPages) ∧
    (download_and_filter_pdfs 15
        [⟨"1", some 5⟩, ⟨"2", some 20⟩, ⟨"3", some 8⟩]).2
      = [(⟨"1", some 5⟩, 5), (⟨"3", some 8⟩, 8)] := by
  constructor
  · intro quota maxPages df p hp
    simp only [download_and_filter_pdfs_gen] at hp
    exact of_decide_eq_true (List.mem_filter.mp hp).2
  · decide

/-- C7 witness: the filter bound applied to a concrete retained pair of
Scenario A. -/
theorem page_count_filter_witness :
    ((⟨"1", some 5⟩ : Row), 5).2 ≤ 15 :=
  page_count_filter.1 100 15 [⟨"1", some 5⟩, ⟨"2", some 20⟩, ⟨"3", some 8⟩]
    (⟨"1", some 5⟩, 5) (by decide)

/-- The loop appends exactly one page count per attempted row, in attempt
order: the accumulated list extends the entry list by the per-row page counts
of some attempted prefix of the remaining rows. -/
lemma downloadLoop_counts_attempted (quota maxPages : Nat) :
    ∀ (df : List Row) (s : LoopState),
      ∃ k, k ≤ df.length ∧
        (downloadLoop quota maxPages df s).pdf_page_counts
          = s.pdf_page_counts ++ (df.take k).map pageCountOf := by
  intro df
  induction df with
  | nil =>
    intro s
    exact ⟨0, Nat.le_refl 0, by simp [downloadLoop]⟩
  | cons r rs ih =>
    intro s
    cases hf : r.fetch with
    | none =>
      obtain ⟨k, hk, hcounts⟩ := ih { s with pdf_page_counts := s.pdf_page_counts ++ [0] }
      refine ⟨k + 1, Nat.succ_le_succ hk, ?_⟩
      simp only [downloadLoop, hf]
      simp [hcounts, pageCountOf, hf]
    | some pc =>
      by_cases hpc : pc ≤ maxPages
      · by_cases hq : quota ≤ s.valid_pdf_count + 1
        · refine ⟨1, Nat.succ_le_succ (Nat.zero_le _), ?_⟩
          simp only [downloadLoop, hf]
          simp [hpc, hq, pageCountOf, hf]
        · obtain ⟨k, hk, hcounts⟩ := ih
            { s with saved := s.saved ++ [r.id],
                     valid_pdf_count := s.valid_pdf_count + 1,
                     pdf_page_counts := s.pdf_page_counts ++ [pc] }
          refine ⟨k + 1, Nat.succ_le_succ hk, ?_⟩
          simp only [downloadLoop, hf]
          simp [hpc, hq, hcounts, pageCountOf, hf]
      · by_cases hq : quota ≤ s.valid_pdf_count
        · refine ⟨1, Nat.succ_le_succ (Nat.zero_le _), ?_⟩
          simp only [downloadLoop, hf]
          simp [hpc, hq, pageCountOf, hf]
        · obtain ⟨k, hk, hcounts⟩ := ih
            { s with pdf_page_counts := s.pdf_page_counts ++ [pc] }
          refine ⟨k + 1, Nat.succ_le_succ hk, ?_⟩
          simp only [downloadLoop, hf]
          simp [hpc, hq, hcounts, pageCountOf, hf]

/-- C10: after trimming the input to the attempted rows, the recorded page
counts are exactly the per-row counts of that prefix in order (one entry per
attempted row: the measured count on success, the sentinel 0 on failure); each
trimmed row is zipped with the count measured for that same row; and the
returned rows form a subsequence of the attempted input prefix in original
discovery order. -/
theorem attempted_rows_alignment (quota maxPages : Nat) (df : List Row) :
    (download_and_filter_pdfs_gen quota maxPages df).1.pdf_page_counts
      = (df.take (download_and_filter_pdfs_gen quota maxPages df).1.pdf_page_counts.length).map
          pageCountOf ∧
    (df.take (download_and_filter_pdfs_gen quota maxPages df).1.pdf_page_counts.length).zip
        (download_and_filter_pdfs_gen quota maxPages df).1.pdf_page_counts
      = (df.take (download_and_filter_pdfs_gen quota maxPages df).1.pdf_page_counts.length).map
          (fun r => (r, pageCountOf r)) ∧
    List.Sublist (download_and_filter_pdfs_gen quota maxPages df).2
      ((df.take (download_and_filter_pdfs_gen quota maxPages df).1.pdf_page_counts.length).map
          (fun r => (r, pageCountOf r))) ∧
    List.Sublist ((download_and_filter_pdfs_gen quota maxPages df).2.map Prod.fst)
      (df.take (download_and_filter_pdfs_gen quota maxPages df).1.pdf_page_counts.length) := by
  obtain ⟨k, hk, hcounts⟩ :=
    downloadLoop_counts_attempted quota maxPages df initState
  have hcounts0 : (downloadLoop quota maxPages df initState).pdf_page_counts
      = (df.take k).map pageCountOf := by simpa [initState] using hcounts
  have hlen : (downloadLoop quota maxPages df initState).pdf_page_counts.length = k := by
    simp [hcounts0, List.length_take, Nat.min_eq_left hk]
  have hzip : (df.take k).zip ((df.take k).map pageCountOf)
      = (df.take k).map (fun r => (r, pageCountOf r)) := by
    have := List.zip_map' id pageCountOf (df.take k)
    simpa using this
  have h1 : (downloadLoop quota maxPages df initState).pdf_page_counts
      = (df.take (downloadLoop quota maxPages df initState).pdf_page_counts.length).map
          pageCountOf := by
    rw [hlen, hcounts0]
  have h2 : (df.take (downloadLoop quota maxPages df initState).pdf_page_counts.length).zip
        (downloadLoop quota maxPages df initState).pdf_page_counts
      = (df.take (downloadLoop quota maxPages df initState).pdf_page_counts.length).map
          (fun r => (r, pageCountOf r)) := by
    rw [hlen, hcounts0, hzip]
  have h3 : List.Sublist
      (((df.take (downloadLoop quota maxPages df initState).pdf_page_counts.length).zip
          (downloadLoop quota maxPages df initState).pdf_page_counts).filter
          (fun p => p.2 ≤ maxPages))
      ((df.take (downloadLoop quota maxPages df initState).pdf_page_counts.length).map
          (fun r => (r, pageCountOf r))) := by
    have hs := List.filter_sublist (p := fun p : Row × Nat => decide (p.2 ≤ maxPages))
      ((df.take (downloadLoop quota maxPages df initState).pdf_page_counts.length).zip
        (downloadLoop quota maxPages df initState).pdf_page_counts)
    exact hs.trans (by rw [h2])
  have hfun : (Prod.fst ∘ fun r : Row => (r, pageCountOf r)) = id := rfl
  have hid : (df.take (downloadLoop quota maxPages df initState).pdf_page_counts.length).map
      (Prod.fst ∘ fun r : Row => (r, pageCountOf r))
      = df.take (downloadLoop quota maxPages df initState).pdf_page_counts.length := by
    rw [hfun, List.map_id]
  have h4 := List.Sublist.map Prod.fst h3
  rw [List.map_map, hid] at h4
  exact ⟨h1, h2, h3, h4⟩

/-! ## research_processor.py — extraction, normalization, aggregation -/

/-- The text of a raw extraction response, modeled by the outcome of
`json.loads` on it: `parse = none` means the text raises `JSONDecodeError`,
`parse = some j` means it decodes to the JSON value `j`. -/
structure TextDoc where
  parse : Option Json

/-- An uploaded PDF file object together with the outcome its extraction call
produces: `callResult = none` models `generate_content`/`response.text`
raising an exception; `callResult = some t` a returned response text `t`. -/
structure UploadedFile where
  display_name : String
  callResult : Option TextDoc

/-- `base_name = pdf.display_name.replace('.pdf', '')` from
`generate_responses`. -/
def baseName (f : UploadedFile) : String := f.display_name.replace ".pdf" ""

/-- State accumulated by `generate_responses`: the response folder (base name
to text, in write order), the number of `time.sleep(15)` delays executed, and
the base names whose failures were logged. -/
structure GenState where
  responses : List (String × TextDoc)
  sleeps : Nat
  errors : List String

/-- Entry state of `generate_responses`: empty response folder, no delays, no
logged failures. -/
def initGen : GenState := ⟨[], 0, []⟩

/-- `ResearchPaperProcessor.generate_responses`: for each file, call the
extraction service; on success write the response text to the response folder
and sleep 15 seconds; on an exception log the error and continue — the sleep
sits inside the `try` block, so no delay runs on the failure path. -/
def generate_responses : List UploadedFile → GenState → GenState
  | [], s => s
  | f :: fs, s =>
    match f.callResult with
    | some t =>
      generate_responses fs
        { s with responses := s.responses ++ [(baseName f, t)],
                 sleeps := s.sleeps + 1 }
    | none =>
      generate_responses fs { s with errors := s.errors ++ [baseName f] }

/-- `ResearchPaperProcessor.convert_responses_to_json`: for each `.txt` file in
the response folder, try `json.loads`; on success write the decoded value to
the json folder; on `JSONDecodeError` log and continue.  Returns the json
folder contents and the logged decode failures, both in traversal order. -/
def convert_responses_to_json : List (String × TextDoc) →
    List (String × Json) × List String
  | [] => ([], [])
  | (b, t) :: rest =>
    match t.parse with
    | some j =>
      ((b, j) :: (convert_responses_to_json rest).1,
        (convert_responses_to_json rest).2)
    | none =>
      ((convert_responses_to_json rest).1,
        b :: (convert_responses_to_json rest).2)

/-- Python's `json.load(f)['data']`: succeeds only when the value is an object
carrying the key. -/
def getKey (j : Json) (key : String) : Option Json :=
  match j with
  | Json.obj fields => fields.lookup key
  | _ => none

/-- `ResearchPaperProcessor.combine_json_files`, up to the write of the output
file: fold every json-folder entry into one mapping, taking each entry's
`['data']` payload.  `none` models the uncaught `KeyError`/`TypeError` raised
when an entry has no `data` object, which aborts before the output is opened. -/
def combine_json_files : List (String × Json) → Option (List (String × Json))
  | [] => some []
  | (b, j) :: rest =>
    match getKey j "data", combine_json_files rest with
    | some d, some tail => some ((b, d) :: tail)
    | _, _ => none

/-- The durable state `combine_json_files` touches: the json folder it reads
and the consolidated output file it (re)writes. -/
structure AggState where
  json_folder : List (String × Json)
  output_file : Option (List (String × Json))

/-- One run of `combine_json_files` as a state transformer: on success the
output file is overwritten with the corpus assembled from the json folder
alone; if the loop raises, the output file is never opened and keeps its prior
contents. -/
def run_combine (st : AggState) : AggState :=
  match combine_json_files st.json_folder with
  | some corpus => { st with output_file := some corpus }
  | none => st

/-- The data flow of `ResearchPaperProcessor.run` after upload: generate
responses for the uploaded files, convert them to JSON, and combine the json
folder into the corpus. -/
def pipeline_corpus (files : List UploadedFile) : Option (List (String × Json)) :=
  combine_json_files
    (convert_responses_to_json (generate_responses files initGen).responses).1

/-! ### Schema conformance, modelled from the spec -/

/-- Is a JSON value a string? -/
def isStr : Json → Bool
  | Json.str _ => true
  | _ => false

/-- Modelled from the spec: one References entry — an object with string
fields title, authors and citation. -/
def isReference (j : Json) : Bool :=
  match j with
  | Json.obj fields =>
      ((fields.lookup "title").any isStr && (fields.lookup "authors").any isStr)
        && (fields.lookup "citation").any isStr
  | _ => false

/-- Modelled from the spec: one images entry — an object with string fields
image_desc and image_location. -/
def isImageEntry (j : Json) : Bool :=
  match j with
  | Json.obj fields =>
      (fields.lookup "image_desc").any isStr
        && (fields.lookup "image_location").any isStr
  | _ => false

/-- Modelled from the spec: the sections mapping — an object whose
"References" entry is a list of reference objects. -/
def isSections (j : Json) : Bool :=
  match j with
  | Json.obj fields =>
    match fields.lookup "References" with
    | some (Json.arr refs) => refs.all isReference
    | _ => false
  | _ => false

/-- Modelled from the spec: the images mapping — an object all of whose values
are image entries. -/
def isImages (j : Json) : Bool :=
  match j with
  | Json.obj fields => fields.all (fun p => isImageEntry p.2)
  | _ => false

/-- Modelled from the spec: the StructuredDocument schema — string title,
authors and abstract, a sections mapping with a References list, and an images
mapping. -/
def isStructuredDocument (j : Json) : Bool :=
  match j with
  | Json.obj fields =>
      (((fields.lookup "title").any isStr && (fields.lookup "authors").any isStr)
          && (fields.lookup "abstract").any isStr)
        && ((fields.lookup "sections").any isSections
          && (fields.lookup "images").any isImages)
  | _ => false

/-- Modelled from the spec: a raw response conforms when it is a single
top-level object whose "data" payload is a StructuredDocument, as the
extraction-service contract requires. -/
def conformsToStructuredDocument (j : Json) : Bool :=
  match getKey j "data" with
  | some d => isStructuredDocument d
  | none => false

/-! ### Normalizer lemmas -/

/-- The json folder written by the normalizer holds exactly the decodable
responses, in order. -/
lemma convert_fst_eq (store : List (String × TextDoc)) :
    (convert_responses_to_json store).1
      = store.filterMap (fun p => p.2.parse.map (fun j => (p.1, j))) := by
  induction store with
  | nil => rfl
  | cons p rest ih =>
    obtain ⟨b, t⟩ := p
    cases hp : t.parse with
    | some j => simp [convert_responses_to_json, hp, ih]
    | none => simp [convert_responses_to_json, hp, ih]

/-- The normalizer logs exactly the undecodable responses, in order. -/
lemma convert_snd_eq (store : List (String × TextDoc)) :
    (convert_responses_to_json store).2
      = (store.filter (fun p => p.2.parse.isNone)).map (fun p => p.1) := by
  induction store with
  | nil => rfl
  | cons p rest ih =>
    obtain ⟨b, t⟩ := p
    cases hp : t.parse with
    | some j => simp [convert_responses_to_json, hp, ih]
    | none => simp [convert_responses_to_json, hp, ih]

/-- C8: a malformed raw response never halts the normalizer: the whole store
is traversed, the json folder receives exactly the parse-successful responses
in order — a malformed response produces no artifact — and each malformed
response is logged, in order. -/
theorem malformed_response_never_halts (store : List (String × TextDoc)) :
    (convert_responses_to_json store).1
        = store.filterMap (fun p => p.2.parse.map (fun j => (p.1, j))) ∧
      (convert_responses_to_json store).2
        = (store.filter (fun p => p.2.parse.isNone)).map (fun p => p.1) :=
  ⟨convert_fst_eq store, convert_snd_eq store⟩

/-- C5 (counterexample): a response decoding to the bare JSON number 42 — which
does not conform to the StructuredDocument schema — is persisted to the parsed
store anyway: the normalizer checks JSON well-formedness only, never the
schema. -/
theorem nonconforming_response_persisted :
    (convert_responses_to_json [("d1", ⟨some (Json.num 42)⟩)]).1
        = [("d1", Json.num 42)] ∧
      conformsToStructuredDocument (Json.num 42) = false :=
  ⟨rfl, rfl⟩

/-- C5 (amended): the normalizer persists a parsed record for a response if and
only if the response's text parses as JSON at all; schema conformance against
StructuredDocument is not checked. -/
theorem parsed_record_iff_decodable (store : List (String × TextDoc))
    (b : String) (j : Json) :
    (b, j) ∈ (convert_responses_to_json store).1 ↔
      ∃ t : TextDoc, (b, t) ∈ store ∧ t.parse = some j := by
  rw [convert_fst_eq, List.mem_filterMap]
  constructor
  · rintro ⟨⟨b0, t0⟩, hmem, hf⟩
    simp only [Option.map_eq_some'] at hf
    obtain ⟨j0, hparse, hpair⟩ := hf
    obtain ⟨rfl, rfl⟩ := Prod.mk.injEq .. ▸ hpair
    exact ⟨t0, hmem, hparse⟩
  · rintro ⟨t, hmem, hparse⟩
    exact ⟨(b, t), hmem, by simp [hparse]⟩

/-- C4 (failing input): three uploaded files whose second extraction call
raises.  Only two throttling delays run — `time.sleep(15)` sits inside the
`try` block, so after a failed call the next call starts with no delay,
contradicting the claim that the inter-call delay is applied unconditionally
after every call. -/
theorem throttle_delay_skipped_on_failure :
    (generate_responses
        [⟨"a.pdf", some ⟨none⟩⟩, ⟨"b.pdf", none⟩, ⟨"c.pdf", some ⟨none⟩⟩]
        initGen).sleeps = 2 ∧
      (generate_responses
        [⟨"a.pdf", some ⟨none⟩⟩, ⟨"b.pdf", none⟩, ⟨"c.pdf", some ⟨none⟩⟩]
        initGen).errors.length = 1 :=
  ⟨rfl, rfl⟩

/-- C9: a per-call extraction failure never aborts the batch: the failing
document is logged, no raw response is persisted for it, and the remaining
documents are all processed.  With three retained documents whose third
extraction call fails, the response store holds documents 1 and 2 and the final
corpus is exactly their payloads (Scenario C). -/
theorem extraction_failure_isolated
    (f1 f2 f3 : UploadedFile) (t1 t2 : TextDoc) (j1 j2 d1 d2 : Json)
    (h1 : f1.callResult = some t1) (h2 : f2.callResult = some t2)
    (h3 : f3.callResult = none)
    (hp1 : t1.parse = some j1) (hp2 : t2.parse = some j2)
    (hd1 : getKey j1 "data" = some d1) (hd2 : getKey j2 "data" = some d2) :
    (generate_responses [f1, f2, f3] initGen).responses
        = [(baseName f1, t1), (baseName f2, t2)] ∧
      (generate_responses [f1, f2, f3] initGen).errors = [baseName f3] ∧
      pipeline_corpus [f1, f2, f3]
        = some [(baseName f1, d1), (baseName f2, d2)] := by
  have hresp : (generate_responses [f1, f2, f3] initGen).responses
      = [(baseName f1, t1), (baseName f2, t2)] := by
    simp [generate_responses, initGen, h1, h2, h3]
  refine ⟨hresp, ?_, ?_⟩
  · simp [generate_responses, initGen, h1, h2, h3]
  · unfold pipeline_corpus
    rw [hresp]
    simp [convert_responses_to_json, hp1, hp2, combine_json_files, hd1, hd2]

/-- C9 witness: the three-document scenario instantiated with concrete files
and payloads; the third call fails and the corpus holds documents 1 and 2. -/
theorem extraction_failure_isolated_witness :
    pipeline_corpus
        [⟨"1.pdf", some ⟨some (Json.obj [("data", Json.str "p1")])⟩⟩,
         ⟨"2.pdf", some ⟨some (Json.obj [("data", Json.str "p2")])⟩⟩,
         ⟨"3.pdf", none⟩]
      = some [(baseName ⟨"1.pdf", some ⟨some (Json.obj [("data", Json.str "p1")])⟩⟩,
                Json.str "p1"),
              (baseName ⟨"2.pdf", some ⟨some (Json.obj [("data", Json.str "p2")])⟩⟩,
                Json.str "p2")] :=
  (extraction_failure_isolated
    ⟨"1.pdf", some ⟨some (Json.obj [("data", Json.str "p1")])⟩⟩
    ⟨"2.pdf", some ⟨some (Json.obj [("data", Json.str "p2")])⟩⟩
    ⟨"3.pdf", none⟩
    ⟨some (Json.obj [("data", Json.str "p1")])⟩
    ⟨some (Json.obj [("data", Json.str "p2")])⟩
    (Json.obj [("data", Json.str "p1")]) (Json.obj [("data", Json.str "p2")])
    (Json.str "p1") (Json.str "p2")
    rfl rfl rfl rfl rfl rfl rfl).2.2

/-- C6: aggregation is idempotent and non-incremental: running
`combine_json_files` twice over an unchanged json folder leaves the state
fixed, and the corpus a successful run writes is assembled from the json
folder alone — whatever output file a prior run left behind is overwritten,
never merged. -/
theorem aggregation_idempotent_nonincremental :
    (∀ st : AggState, run_combine (run_combine st) = run_combine st) ∧
    (∀ (folder : List (String × Json)) (o : Option (List (String × Json)))
        (c : List (String × Json)),
        combine_json_files folder = some c →
        (run_combine ⟨folder, o⟩).output_file = some c) := by
  constructor
  · intro st
    cases h : combine_json_files st.json_folder with
    | some corpus => simp [run_combine, h]
    | none => simp [run_combine, h]
  · intro folder o c h
    simp [run_combine, h]

/-- C6 witness: a one-document folder aggregated on top of a stale non-empty
output file; the run overwrites it with the folder's payload alone. -/
theorem aggregation_idempotent_nonincremental_witness :
    (run_combine ⟨[("a", Json.obj [("data", Json.null)])],
        some [("stale", Json.bool true)]⟩).output_file
      = some [("a", Json.null)] :=
  aggregation_idempotent_nonincremental.2
    [("a", Json.obj [("data", Json.null)])]
    (some [("stale", Json.bool true)]) [("a", Json.null)] rfl

end PdfRag
